import Mathlib

/-
Verification of the request-time authentication status resolver
(src/packages/backend/src/tokens/authStatus.ts).

The embedding models the four state constructors (signedIn, signedOut,
interstitial, unknownState), the state transport codec
(injectRequestState / retrieveRequestState), and the data model
(AuthStatus, AuthErrorReason / AuthReason, RequestState).

Collaborators that are imported by authStatus.ts but whose files are not
part of the given sources (../constants, ./authObjects, ./errors, ../api)
are modelled from the specification, each marked with a doc comment
starting with: Modelled from the spec.
-/

namespace AuthCore

/-- JSVal models a JavaScript value that is either a string or
undefined/null, with JavaScript truthiness: undefined, null and the empty
string are falsy, every non-empty string is truthy. -/
inductive JSVal where
  | undef : JSVal
  | str : String → JSVal
deriving DecidableEq, Repr

def JSVal.truthy : JSVal → Bool
  | JSVal.undef => false
  | JSVal.str s => !s.isEmpty

def JSVal.asString : JSVal → String
  | JSVal.undef => ""
  | JSVal.str s => s

/-- jsOr models the JavaScript logical-or on values: the left operand when
it is truthy, otherwise the right operand. -/
def jsOr (a b : JSVal) : JSVal := if a.truthy then a else b

/-- Truthiness of an optional string, as JavaScript sees the corresponding
value (undefined and the empty string are falsy). -/
def optTruthy : Option String → Bool
  | none => false
  | some s => !s.isEmpty

/-- The AuthStatus enum of authStatus.ts (lines 10-15). -/
inductive AuthStatus where
  | signedIn : AuthStatus
  | signedOut : AuthStatus
  | interstitial : AuthStatus
  | unknown : AuthStatus
deriving DecidableEq, Repr

/-- The string value of each AuthStatus enum member. -/
def AuthStatus.code : AuthStatus → String
  | AuthStatus.signedIn => "signed-in"
  | AuthStatus.signedOut => "signed-out"
  | AuthStatus.interstitial => "interstitial"
  | AuthStatus.unknown => "unknown"

/-- The AuthErrorReason enum of authStatus.ts (lines 59-72). -/
inductive AuthErrorReason where
  | cookieAndUATMissing : AuthErrorReason
  | cookieMissing : AuthErrorReason
  | cookieOutDated : AuthErrorReason
  | cookieUATMissing : AuthErrorReason
  | crossOriginReferrer : AuthErrorReason
  | headerMissingCORS : AuthErrorReason
  | headerMissingNonBrowser : AuthErrorReason
  | satelliteCookieNeedsSyncing : AuthErrorReason
  | standardSignedIn : AuthErrorReason
  | standardSignedOut : AuthErrorReason
  | unexpectedError : AuthErrorReason
  | unknown : AuthErrorReason
deriving DecidableEq, Repr

/-- The string value of each AuthErrorReason enum member. -/
def AuthErrorReason.code : AuthErrorReason → String
  | AuthErrorReason.cookieAndUATMissing => "cookie-and-uat-missing"
  | AuthErrorReason.cookieMissing => "cookie-missing"
  | AuthErrorReason.cookieOutDated => "cookie-outdated"
  | AuthErrorReason.cookieUATMissing => "uat-missing"
  | AuthErrorReason.crossOriginReferrer => "cross-origin-referrer"
  | AuthErrorReason.headerMissingCORS => "header-missing-cors"
  | AuthErrorReason.headerMissingNonBrowser => "header-missing-non-browser"
  | AuthErrorReason.satelliteCookieNeedsSyncing => "satellite-needs-syncing"
  | AuthErrorReason.standardSignedIn => "standard-signed-in"
  | AuthErrorReason.standardSignedOut => "standard-signed-out"
  | AuthErrorReason.unexpectedError => "unexpected-error"
  | AuthErrorReason.unknown => "unknown"

/-- AuthReason is the union of the local AuthErrorReason codes and the
TokenVerificationErrorReason codes (authStatus.ts line 74). The
verification side is Modelled from the spec: ./errors is not among the
given sources; per the spec the verification failure reasons are opaque
string codes supplied by the external token verifier. -/
inductive AuthReason where
  | policy : AuthErrorReason → AuthReason
  | verification : String → AuthReason
deriving DecidableEq, Repr

/-- The runtime string value of an AuthReason. -/
def AuthReason.code : AuthReason → String
  | AuthReason.policy r => r.code
  | AuthReason.verification c => c

/-- Verified JWT claims used by signedIn (authStatus.ts line 96):
sub is the user id, sid the session id, org_id the optional org id. -/
structure JwtPayload where
  sub : String
  sid : String
  org_id : Option String
deriving DecidableEq, Repr

/-- Modelled from the spec: a session record returned by the identity
fetch collaborator (out of scope, abstract). -/
structure SessionRecord where
  id : String
deriving DecidableEq, Repr

/-- Modelled from the spec: a user record returned by the identity fetch
collaborator (out of scope, abstract). -/
structure UserRecord where
  id : String
deriving DecidableEq, Repr

/-- Modelled from the spec: an organization record returned by the
identity fetch collaborator (out of scope, abstract). -/
structure OrganizationRecord where
  id : String
deriving DecidableEq, Repr

/-- The SignedInAuthObject shape, Modelled from the spec: ./authObjects is
not among the given sources; per the spec it exposes the verified claims,
the chosen token and the optionally fetched records. -/
structure SignedInAuthObject where
  sessionClaims : JwtPayload
  token : String
  session : Option SessionRecord
  user : Option UserRecord
  organization : Option OrganizationRecord
deriving DecidableEq, Repr

/-- The SignedOutAuthObject shape, Modelled from the spec: ./authObjects
is not among the given sources; per the spec it carries the status,
reason and message passed by the signedOut constructor. -/
structure SignedOutAuthObject where
  status : AuthStatus
  reason : AuthReason
  message : String
deriving DecidableEq, Repr

/-- Modelled from the spec: signedInAuthObject builds the signed-in Auth
Object from the verified claims, the chosen token and whichever records
were fetched. -/
def signedInAuthObject (sessionClaims : JwtPayload) (token : String)
    (session : Option SessionRecord) (user : Option UserRecord)
    (organization : Option OrganizationRecord) : SignedInAuthObject :=
  { sessionClaims := sessionClaims
    token := token
    session := session
    user := user
    organization := organization }

/-- Modelled from the spec: signedOutAuthObject builds the signed-out Auth
Object carrying the status, reason and message. -/
def signedOutAuthObject (status : AuthStatus) (reason : AuthReason)
    (message : String) : SignedOutAuthObject :=
  { status := status, reason := reason, message := message }

/-- The value a state toAuth closure can return: a SignedInAuthObject,
a SignedOutAuthObject, or null. -/
inductive AuthObjectResult where
  | signedInObj : SignedInAuthObject → AuthObjectResult
  | signedOutObj : SignedOutAuthObject → AuthObjectResult
  | null : AuthObjectResult
deriving DecidableEq, Repr

/-- The loosely typed options bag accepted by the constructors
(recognized fields per the source destructurings and spec section 6;
optional fields model possibly-undefined JavaScript values). -/
structure Options where
  apiKey : Option String
  secretKey : Option String
  apiUrl : Option String
  apiVersion : Option String
  cookieToken : JSVal
  headerToken : JSVal
  frontendApi : Option String
  proxyUrl : Option String
  publishableKey : Option String
  domain : Option String
  isSatellite : Option Bool
  loadSession : Bool
  loadUser : Bool
  loadOrganization : Bool
deriving DecidableEq, Repr

/-- RequestState unifies the four variant shapes of authStatus.ts
(SignedInState, SignedOutState, InterstitialState, UnknownState): every
field the source object literals set, with Option marking values that are
null/undefined in some variants, and toAuth modelled as the pure value
the closure returns on each call. -/
structure RequestState where
  status : AuthStatus
  reason : Option AuthReason
  message : Option String
  frontendApi : Option String
  proxyUrl : Option String
  publishableKey : Option String
  isSatellite : Option Bool
  domain : Option String
  isSignedIn : Bool
  isInterstitial : Bool
  isUnknown : Bool
  toAuth : Unit → AuthObjectResult

/-- Token selection of signedIn, line 125 of the source:
cookieToken or-else headerToken or-else the empty string, with JavaScript
logical-or (left-associated). -/
def selectToken (cookieToken headerToken : JSVal) : String :=
  (jsOr (jsOr cookieToken headerToken) (JSVal.str "")).asString

/-- The identity fetch collaborator (created by createBackendApiClient,
../api, out of scope per the spec): each fetch may fail, modelled with
Except. -/
structure ApiClient where
  getSession : String → Except String SessionRecord
  getUser : String → Except String UserRecord
  getOrganization : String → Except String OrganizationRecord

/-- A fetch call issued to the identity collaborator, recorded with its
argument. -/
inductive FetchCall where
  | session : String → FetchCall
  | user : String → FetchCall
  | organization : String → FetchCall
deriving DecidableEq, Repr

/-- The session slot of the concurrent fetch step (line 106): the gated
session fetch result, not-fetched (none) when loadSession is false. -/
def sessionFetchResult (client : ApiClient) (options : Options)
    (sessionClaims : JwtPayload) : Except String (Option SessionRecord) :=
  if options.loadSession then
    (client.getSession sessionClaims.sid).map some
  else Except.ok none

/-- The user slot of the concurrent fetch step (line 107). -/
def userFetchResult (client : ApiClient) (options : Options)
    (sessionClaims : JwtPayload) : Except String (Option UserRecord) :=
  if options.loadUser then
    (client.getUser sessionClaims.sub).map some
  else Except.ok none

/-- The organization slot of the concurrent fetch step (line 108), gated
on both the load flag and a truthy org_id. -/
def orgFetchResult (client : ApiClient) (options : Options)
    (sessionClaims : JwtPayload) : Except String (Option OrganizationRecord) :=
  if options.loadOrganization && optTruthy sessionClaims.org_id then
    (client.getOrganization (sessionClaims.org_id.getD "")).map some
  else Except.ok none

/-- The concurrent fetch step of signedIn (lines 105-109): each of the
three fetches is gated by its load flag (the organization fetch is also
gated on a truthy org_id); the list records exactly the calls issued, and
the joint result fails when any issued fetch fails (Promise.all). -/
def runFetches (client : ApiClient) (options : Options)
    (sessionClaims : JwtPayload) :
    List FetchCall ×
      Except String
        (Option SessionRecord × Option UserRecord × Option OrganizationRecord) :=
  ((if options.loadSession then [FetchCall.session sessionClaims.sid] else []) ++
    (if options.loadUser then [FetchCall.user sessionClaims.sub] else []) ++
    (if options.loadOrganization && optTruthy sessionClaims.org_id then
      [FetchCall.organization (sessionClaims.org_id.getD "")]
    else []),
    match sessionFetchResult client options sessionClaims,
          userFetchResult client options sessionClaims,
          orgFetchResult client options sessionClaims with
    | Except.ok s, Except.ok u, Except.ok og => Except.ok (s, u, og)
    | Except.error e, _, _ => Except.error e
    | Except.ok _, Except.error e, _ => Except.error e
    | Except.ok _, Except.ok _, Except.error e => Except.error e)

/-- The signedIn constructor (lines 78-147): runs the gated fetches, then
builds the SignedInState whose toAuth closure returns the
SignedInAuthObject built from the claims, the selected token and the
fetched records. The first component records the fetch calls issued; the
Except propagates a fetch failure to the caller. -/
def signedIn (client : ApiClient) (options : Options)
    (sessionClaims : JwtPayload) : List FetchCall × Except String RequestState :=
  let fetches := runFetches client options sessionClaims
  (fetches.1,
    fetches.2.map (fun recs =>
      let authObject := signedInAuthObject sessionClaims
        (selectToken options.cookieToken options.headerToken)
        recs.1 recs.2.1 recs.2.2
      { status := AuthStatus.signedIn
        reason := none
        message := none
        frontendApi := options.frontendApi
        proxyUrl := options.proxyUrl
        publishableKey := options.publishableKey
        domain := options.domain
        isSatellite := options.isSatellite
        isSignedIn := true
        isInterstitial := false
        isUnknown := false
        toAuth := fun _ => AuthObjectResult.signedInObj authObject }))

/-- The signedOut constructor (lines 149-166). The source defaults
message to the empty string when the caller omits it; the model takes it
explicitly and callers pass the empty string for the omitted case. -/
def signedOut (options : Options) (reason : AuthReason)
    (message : String) : RequestState :=
  { status := AuthStatus.signedOut
    reason := some reason
    message := some message
    frontendApi := options.frontendApi
    proxyUrl := options.proxyUrl
    publishableKey := options.publishableKey
    isSatellite := options.isSatellite
    domain := options.domain
    isSignedIn := false
    isInterstitial := false
    isUnknown := false
    toAuth := fun _ =>
      AuthObjectResult.signedOutObj
        (signedOutAuthObject AuthStatus.signedOut reason message) }

/-- The interstitial constructor (lines 168-184): same shape as
signedOut but toAuth always returns null. -/
def interstitial (options : Options) (reason : AuthReason)
    (message : String) : RequestState :=
  { status := AuthStatus.interstitial
    reason := some reason
    message := some message
    frontendApi := options.frontendApi
    publishableKey := options.publishableKey
    isSatellite := options.isSatellite
    domain := options.domain
    proxyUrl := options.proxyUrl
    isSignedIn := false
    isInterstitial := true
    isUnknown := false
    toAuth := fun _ => AuthObjectResult.null }

/-- The unknownState constructor (lines 186-201). The source destructures
only frontendApi, publishableKey, isSatellite and domain from the options
(line 187) and the returned object literal has no proxyUrl key, so the
state carries proxyUrl as undefined (none here). -/
def unknownState (options : Options) (reason : AuthReason)
    (message : String) : RequestState :=
  { status := AuthStatus.unknown
    reason := some reason
    message := some message
    frontendApi := options.frontendApi
    publishableKey := options.publishableKey
    isSatellite := options.isSatellite
    domain := options.domain
    proxyUrl := none
    isSignedIn := false
    isInterstitial := false
    isUnknown := true
    toAuth := fun _ => AuthObjectResult.null }

/-- Modelled from the spec: the transport key for the status
(constants.Headers.AuthStatus; ../constants is not among the given
sources and the spec abstracts the names as three distinct constants). -/
def headerAuthStatus : String := "x-auth-status"

/-- Modelled from the spec: the transport key for the message
(constants.Headers.AuthMessage). -/
def headerAuthMessage : String := "x-auth-message"

/-- Modelled from the spec: the transport key for the reason
(constants.Headers.AuthReason). -/
def headerAuthReason : String := "x-auth-reason"

/-- injectRequestState (lines 204-209): invokes the inject callback for
each of status, message and reason whose runtime value is truthy; the
model returns the ordered list of (key, value) callback invocations. -/
def injectRequestState (requestState : RequestState) :
    List (String × String) :=
  (if !requestState.status.code.isEmpty then
    [(headerAuthStatus, requestState.status.code)]
  else []) ++
  (match requestState.message with
   | some m => if !m.isEmpty then [(headerAuthMessage, m)] else []
   | none => []) ++
  (match requestState.reason with
   | some r => if !(AuthReason.code r).isEmpty then
       [(headerAuthReason, AuthReason.code r)]
     else []
   | none => [])

/-- The plain record returned by retrieveRequestState (line 217). -/
structure RetrievedState where
  status : Option String
  message : Option String
  reason : Option String
deriving DecidableEq, Repr

/-- One invocation of the retrieve callback, appending the queried key to
the call log. -/
def tracedRetrieve {Q : Type} (retrieve : Q → String → Option String)
    (req : Q) (key : String) (log : List String) :
    Option String × List String :=
  (retrieve req key, log ++ [key])

/-- retrieveRequestState (lines 212-218) with its callback invocations
instrumented: it reads the three transport keys in order and returns the
record of the three retrieved values together with the log of keys
queried. -/
def retrieveRequestStateTraced {Q : Type} (req : Q)
    (retrieve : Q → String → Option String) :
    RetrievedState × List String :=
  let statusStep := tracedRetrieve retrieve req headerAuthStatus []
  let messageStep := tracedRetrieve retrieve req headerAuthMessage statusStep.2
  let reasonStep := tracedRetrieve retrieve req headerAuthReason messageStep.2
  ({ status := statusStep.1
     message := messageStep.1
     reason := reasonStep.1 }, reasonStep.2)

/-- retrieveRequestState (lines 212-218): the record of the three
retrieved values. -/
def retrieveRequestState {Q : Type} (req : Q)
    (retrieve : Q → String → Option String) : RetrievedState :=
  (retrieveRequestStateTraced req retrieve).1

/-- A key/value carrier (for example response headers): an association
list written by inject callbacks and read back by key. -/
def emptyCarrier : List (String × String) := []

/-- Applies the ordered inject writes to a carrier. -/
def carrierInject (carrier : List (String × String))
    (writes : List (String × String)) : List (String × String) :=
  carrier ++ writes

/-- Reads a key back from a carrier: the value of the first pair with the
key, none when the key was never injected. -/
def carrierRetrieve (carrier : List (String × String)) (key : String) :
    Option String :=
  (carrier.find? (fun kv => kv.1 == key)).map (fun kv => kv.2)

/-- The boolean table of spec section 3: the three derived booleans each
status determines. -/
def flagsMatchStatus (s : RequestState) : Prop :=
  match s.status with
  | AuthStatus.signedIn =>
      s.isSignedIn = true ∧ s.isInterstitial = false ∧ s.isUnknown = false
  | AuthStatus.signedOut =>
      s.isSignedIn = false ∧ s.isInterstitial = false ∧ s.isUnknown = false
  | AuthStatus.interstitial =>
      s.isSignedIn = false ∧ s.isInterstitial = true ∧ s.isUnknown = false
  | AuthStatus.unknown =>
      s.isSignedIn = false ∧ s.isInterstitial = false ∧ s.isUnknown = true

/-- The null pattern of spec section 3: reason and message are null
exactly for SignedIn, non-null for every other status. -/
def nullPatternMatchesStatus (s : RequestState) : Prop :=
  if s.status = AuthStatus.signedIn then s.reason = none ∧ s.message = none
  else s.reason ≠ none ∧ s.message ≠ none

/-- A concrete options bag used by the claim witnesses. -/
def exOptions : Options :=
  { apiKey := some "ak"
    secretKey := some "sk"
    apiUrl := some "https://api.example.com"
    apiVersion := some "v1"
    cookieToken := JSVal.str "c"
    headerToken := JSVal.str "h"
    frontendApi := some "fa.example.com"
    proxyUrl := some "https://proxy.example.com"
    publishableKey := some "pk_test"
    domain := some "example.com"
    isSatellite := some false
    loadSession := true
    loadUser := true
    loadOrganization := true }

/-- Concrete verified claims used by the claim witnesses. -/
def exClaims : JwtPayload :=
  { sub := "user_1", sid := "sess_1", org_id := some "org_1" }

/-- A concrete identity fetch collaborator whose fetches all succeed. -/
def exClient : ApiClient :=
  { getSession := fun sid => Except.ok { id := sid }
    getUser := fun uid => Except.ok { id := uid }
    getOrganization := fun oid => Except.ok { id := oid } }

/-- A concrete identity fetch collaborator whose session fetch fails. -/
def exFailClient : ApiClient :=
  { getSession := fun _ => Except.error "network"
    getUser := fun uid => Except.ok { id := uid }
    getOrganization := fun oid => Except.ok { id := oid } }

/-- The fetched records of the successful example resolution. -/
def exRecs :
    Option SessionRecord × Option UserRecord × Option OrganizationRecord :=
  (some { id := "sess_1" }, some { id := "user_1" }, some { id := "org_1" })

/-- The state of the successful example resolution. -/
def exResolvedState : RequestState :=
  match (signedIn exClient exOptions exClaims).2 with
  | Except.ok st => st
  | Except.error _ =>
      signedOut exOptions (AuthReason.policy AuthErrorReason.unknown) ""

theorem signedIn_fst (client : ApiClient) (options : Options)
    (claims : JwtPayload) :
    (signedIn client options claims).1 = (runFetches client options claims).1 :=
  rfl

theorem runFetches_fst (client : ApiClient) (options : Options)
    (claims : JwtPayload) :
    (runFetches client options claims).1 =
      (if options.loadSession then [FetchCall.session claims.sid] else []) ++
      (if options.loadUser then [FetchCall.user claims.sub] else []) ++
      (if options.loadOrganization && optTruthy claims.org_id then
        [FetchCall.organization (claims.org_id.getD "")]
      else []) :=
  rfl

theorem runFetches_snd (client : ApiClient) (options : Options)
    (claims : JwtPayload) :
    (runFetches client options claims).2 =
      match sessionFetchResult client options claims,
            userFetchResult client options claims,
            orgFetchResult client options claims with
      | Except.ok s, Except.ok u, Except.ok og => Except.ok (s, u, og)
      | Except.error e, _, _ => Except.error e
      | Except.ok _, Except.error e, _ => Except.error e
      | Except.ok _, Except.ok _, Except.error e => Except.error e :=
  rfl

theorem signedIn_snd (client : ApiClient) (options : Options)
    (claims : JwtPayload) :
    (signedIn client options claims).2 =
      (runFetches client options claims).2.map (fun recs =>
        { status := AuthStatus.signedIn
          reason := none
          message := none
          frontendApi := options.frontendApi
          proxyUrl := options.proxyUrl
          publishableKey := options.publishableKey
          domain := options.domain
          isSatellite := options.isSatellite
          isSignedIn := true
          isInterstitial := false
          isUnknown := false
          toAuth := fun _ => AuthObjectResult.signedInObj
            (signedInAuthObject claims
              (selectToken options.cookieToken options.headerToken)
              recs.1 recs.2.1 recs.2.2) }) :=
  rfl

theorem runFetches_ok_parts (client : ApiClient) (options : Options)
    (claims : JwtPayload)
    (recs : Option SessionRecord × Option UserRecord × Option OrganizationRecord)
    (h : (runFetches client options claims).2 = Except.ok recs) :
    sessionFetchResult client options claims = Except.ok recs.1 ∧
    userFetchResult client options claims = Except.ok recs.2.1 ∧
    orgFetchResult client options claims = Except.ok recs.2.2 := by
  rw [runFetches_snd] at h
  cases hs : sessionFetchResult client options claims with
  | error e => rw [hs] at h; simp at h
  | ok s =>
    cases hu : userFetchResult client options claims with
    | error e => rw [hs, hu] at h; simp at h
    | ok u =>
      cases ho : orgFetchResult client options claims with
      | error e => rw [hs, hu, ho] at h; simp at h
      | ok og =>
        rw [hs, hu, ho] at h
        simp only [Except.ok.injEq] at h
        subst h
        exact ⟨rfl, rfl, rfl⟩

theorem runFetches_error_of_part (client : ApiClient) (options : Options)
    (claims : JwtPayload)
    (h : (∃ e, sessionFetchResult client options claims = Except.error e) ∨
      (∃ e, userFetchResult client options claims = Except.error e) ∨
      (∃ e, orgFetchResult client options claims = Except.error e)) :
    ∃ e, (runFetches client options claims).2 = Except.error e := by
  rw [runFetches_snd]
  cases hs : sessionFetchResult client options claims with
  | error e => exact ⟨e, rfl⟩
  | ok s =>
    cases hu : userFetchResult client options claims with
    | error e => exact ⟨e, rfl⟩
    | ok u =>
      cases ho : orgFetchResult client options claims with
      | error e => exact ⟨e, rfl⟩
      | ok og =>
        rcases h with ⟨e, he⟩ | ⟨e, he⟩ | ⟨e, he⟩
        · rw [hs] at he; exact absurd he (by simp)
        · rw [hu] at he; exact absurd he (by simp)
        · rw [ho] at he; exact absurd he (by simp)

theorem signedIn_ok_fields (client : ApiClient) (options : Options)
    (claims : JwtPayload) (st : RequestState)
    (h : (signedIn client options claims).2 = Except.ok st) :
    st.status = AuthStatus.signedIn ∧ st.reason = none ∧ st.message = none ∧
    st.frontendApi = options.frontendApi ∧ st.proxyUrl = options.proxyUrl ∧
    st.publishableKey = options.publishableKey ∧
    st.domain = options.domain ∧ st.isSatellite = options.isSatellite ∧
    st.isSignedIn = true ∧ st.isInterstitial = false ∧ st.isUnknown = false ∧
    ∃ recs, (runFetches client options claims).2 = Except.ok recs ∧
      st.toAuth () = AuthObjectResult.signedInObj
        (signedInAuthObject claims
          (selectToken options.cookieToken options.headerToken)
          recs.1 recs.2.1 recs.2.2) := by
  rw [signedIn_snd] at h
  cases hr : (runFetches client options claims).2 with
  | error e => rw [hr] at h; simp [Except.map] at h
  | ok recs =>
    rw [hr] at h
    simp only [Except.map, Except.ok.injEq] at h
    subst h
    exact ⟨rfl, rfl, rfl, rfl, rfl, rfl, rfl, rfl, rfl, rfl, rfl,
      recs, rfl, rfl⟩

theorem exResolvedState_ok :
    (signedIn exClient exOptions exClaims).2 = Except.ok exResolvedState :=
  rfl

theorem exRunFetches_ok :
    (runFetches exClient exOptions exClaims).2 = Except.ok exRecs :=
  rfl

theorem status_code_not_empty (st : AuthStatus) : st.code.isEmpty = false := by
  cases st <;> rfl

theorem jsOr_truthy_left (a b : JSVal) (h : a.truthy = true) : jsOr a b = a := by
  simp [jsOr, h]

theorem jsOr_falsy_left (a b : JSVal) (h : a.truthy = false) : jsOr a b = b := by
  simp [jsOr, h]

/-- C1: for every invocation of each of the four constructors, the derived
booleans isSignedIn/isInterstitial/isUnknown match the status per the
section 3 table, and reason and message are null exactly when the status
is SignedIn and non-null for every other status. -/
theorem claim_C1 :
    (∀ client options claims st,
        (signedIn client options claims).2 = Except.ok st →
          flagsMatchStatus st ∧ nullPatternMatchesStatus st) ∧
    (∀ options reason message,
        (flagsMatchStatus (signedOut options reason message) ∧
          nullPatternMatchesStatus (signedOut options reason message)) ∧
        (flagsMatchStatus (interstitial options reason message) ∧
          nullPatternMatchesStatus (interstitial options reason message)) ∧
        (flagsMatchStatus (unknownState options reason message) ∧
          nullPatternMatchesStatus (unknownState options reason message))) := by
  constructor
  · intro client options claims st h
    obtain ⟨hst, hr, hm, -, -, -, -, -, hsi, hii, hiu, -⟩ :=
      signedIn_ok_fields client options claims st h
    constructor
    · unfold flagsMatchStatus
      rw [hst]
      exact ⟨hsi, hii, hiu⟩
    · unfold nullPatternMatchesStatus
      rw [hst]
      simp [hr, hm]
  · intro options reason message
    refine ⟨⟨?_, ?_⟩, ⟨?_, ?_⟩, ⟨?_, ?_⟩⟩ <;>
      simp [flagsMatchStatus, nullPatternMatchesStatus, signedOut,
        interstitial, unknownState]

/-- C1 witness: the invariant instantiated at the concrete example
resolution. -/
theorem claim_C1_witness :
    flagsMatchStatus exResolvedState ∧
      nullPatternMatchesStatus exResolvedState :=
  claim_C1.1 exClient exOptions exClaims exResolvedState exResolvedState_ok

/-- C2 counterexample: the state returned by unknownState does not carry
the proxy URL of the options: with an options bag whose proxyUrl is set,
the returned state has proxyUrl undefined. -/
theorem claim_C2_counterexample :
    ¬ ((unknownState exOptions (AuthReason.policy AuthErrorReason.unknown)
          "").proxyUrl = exOptions.proxyUrl) := by
  simp [unknownState, exOptions]

/-- C2 amended: signedIn, signedOut and interstitial copy all five
tenant-metadata fields (frontendApi, proxyUrl, publishableKey,
isSatellite, domain) from the options; unknownState copies frontendApi,
publishableKey, isSatellite and domain but leaves proxyUrl undefined. -/
theorem claim_C2_amended :
    (∀ client options claims st,
        (signedIn client options claims).2 = Except.ok st →
          st.frontendApi = options.frontendApi ∧
          st.proxyUrl = options.proxyUrl ∧
          st.publishableKey = options.publishableKey ∧
          st.isSatellite = options.isSatellite ∧
          st.domain = options.domain) ∧
    (∀ options reason message,
        ((signedOut options reason message).frontendApi = options.frontendApi ∧
          (signedOut options reason message).proxyUrl = options.proxyUrl ∧
          (signedOut options reason message).publishableKey =
            options.publishableKey ∧
          (signedOut options reason message).isSatellite = options.isSatellite ∧
          (signedOut options reason message).domain = options.domain) ∧
        ((interstitial options reason message).frontendApi =
            options.frontendApi ∧
          (interstitial options reason message).proxyUrl = options.proxyUrl ∧
          (interstitial options reason message).publishableKey =
            options.publishableKey ∧
          (interstitial options reason message).isSatellite =
            options.isSatellite ∧
          (interstitial options reason message).domain = options.domain) ∧
        ((unknownState options reason message).frontendApi =
            options.frontendApi ∧
          (unknownState options reason message).publishableKey =
            options.publishableKey ∧
          (unknownState options reason message).isSatellite =
            options.isSatellite ∧
          (unknownState options reason message).domain = options.domain ∧
          (unknownState options reason message).proxyUrl = none)) := by
  constructor
  · intro client options claims st h
    obtain ⟨-, -, -, hfa, hpu, hpk, hd, hsat, -, -, -, -⟩ :=
      signedIn_ok_fields client options claims st h
    exact ⟨hfa, hpu, hpk, hsat, hd⟩
  · intro options reason message
    exact ⟨⟨rfl, rfl, rfl, rfl, rfl⟩, ⟨rfl, rfl, rfl, rfl, rfl⟩,
      ⟨rfl, rfl, rfl, rfl, rfl⟩⟩

/-- C2 witness: the amended claim instantiated at the concrete example
resolution. -/
theorem claim_C2_witness :
    exResolvedState.proxyUrl = exOptions.proxyUrl ∧
      exResolvedState.frontendApi = exOptions.frontendApi :=
  ⟨(claim_C2_amended.1 exClient exOptions exClaims exResolvedState
      exResolvedState_ok).2.1,
    (claim_C2_amended.1 exClient exOptions exClaims exResolvedState
      exResolvedState_ok).1⟩

/-- C4: token selection in signedIn is cookie token, then header token,
then the empty string: the three concrete cases of the claim hold, the
precedence holds for every pair of token values, and the token stored in
the SignedInAuthObject is exactly this selection. -/
theorem claim_C4 :
    selectToken (JSVal.str "c") (JSVal.str "h") = "c" ∧
    selectToken JSVal.undef (JSVal.str "h") = "h" ∧
    selectToken JSVal.undef JSVal.undef = "" ∧
    (∀ c h, (c.truthy = true → selectToken c h = c.asString) ∧
      (c.truthy = false → h.truthy = true → selectToken c h = h.asString) ∧
      (c.truthy = false → h.truthy = false → selectToken c h = "")) ∧
    (∀ client options claims st,
        (signedIn client options claims).2 = Except.ok st →
          ∃ a, st.toAuth () = AuthObjectResult.signedInObj a ∧
            a.token = selectToken options.cookieToken options.headerToken) := by
  refine ⟨rfl, rfl, rfl, ?_, ?_⟩
  · intro c h
    refine ⟨?_, ?_, ?_⟩
    · intro hc
      rw [selectToken, jsOr_truthy_left c h hc, jsOr_truthy_left c _ hc]
    · intro hc hh
      rw [selectToken, jsOr_falsy_left c h hc, jsOr_truthy_left h _ hh]
    · intro hc hh
      rw [selectToken, jsOr_falsy_left c h hc, jsOr_falsy_left h _ hh]
      rfl
  · intro client options claims st h
    obtain ⟨-, -, -, -, -, -, -, -, -, -, -, recs, -, hta⟩ :=
      signedIn_ok_fields client options claims st h
    exact ⟨_, hta, rfl⟩

/-- C4 witness: the token selection claim instantiated at the concrete
example resolution (cookie and header both present, cookie wins). -/
theorem claim_C4_witness :
    ∃ a, exResolvedState.toAuth () = AuthObjectResult.signedInObj a ∧
      a.token = selectToken exOptions.cookieToken exOptions.headerToken :=
  claim_C4.2.2.2.2 exClient exOptions exClaims exResolvedState
    exResolvedState_ok

/-- C6: signedOut with the message omitted yields status SignedOut, the
given reason, an empty message, isSignedIn false, and a non-null
SignedOutAuthObject carrying the same reason and message; interstitial
and unknownState always yield a null toAuth while storing the supplied
message, for example message stale. -/
theorem claim_C6 :
    (∀ options reason,
        (signedOut options reason "").status = AuthStatus.signedOut ∧
        (signedOut options reason "").reason = some reason ∧
        (signedOut options reason "").message = some "" ∧
        (signedOut options reason "").isSignedIn = false ∧
        (signedOut options reason "").toAuth () =
          AuthObjectResult.signedOutObj
            (signedOutAuthObject AuthStatus.signedOut reason "") ∧
        (signedOut options reason "").toAuth () ≠ AuthObjectResult.null ∧
        (signedOutAuthObject AuthStatus.signedOut reason "").reason = reason ∧
        (signedOutAuthObject AuthStatus.signedOut reason "").message = "") ∧
    (∀ options reason message,
        (interstitial options reason message).toAuth () =
          AuthObjectResult.null ∧
        (interstitial options reason message).message = some message ∧
        (unknownState options reason message).toAuth () =
          AuthObjectResult.null ∧
        (unknownState options reason message).message = some message) ∧
    (interstitial exOptions (AuthReason.policy AuthErrorReason.cookieOutDated)
      "stale").message = some "stale" ∧
    (signedOut exOptions (AuthReason.policy AuthErrorReason.cookieMissing)
      "").reason = some (AuthReason.policy AuthErrorReason.cookieMissing) ∧
    (AuthReason.policy AuthErrorReason.cookieMissing).code = "cookie-missing" := by
  refine ⟨?_, ?_, rfl, rfl, rfl⟩
  · intro options reason
    exact ⟨rfl, rfl, rfl, rfl, rfl, by simp [signedOut], rfl, rfl⟩
  · intro options reason message
    exact ⟨rfl, rfl, rfl, rfl⟩

/-- C6 witness: the rejection-constructor postcondition instantiated at a
concrete options bag, reason and message. -/
theorem claim_C6_witness :
    (signedOut exOptions (AuthReason.policy AuthErrorReason.cookieMissing)
        "").status = AuthStatus.signedOut ∧
    (signedOut exOptions (AuthReason.policy AuthErrorReason.cookieMissing)
        "").toAuth () ≠ AuthObjectResult.null ∧
    (interstitial exOptions (AuthReason.policy AuthErrorReason.cookieOutDated)
        "stale").toAuth () = AuthObjectResult.null :=
  ⟨(claim_C6.1 exOptions (AuthReason.policy AuthErrorReason.cookieMissing)).1,
    (claim_C6.1 exOptions
      (AuthReason.policy AuthErrorReason.cookieMissing)).2.2.2.2.2.1,
    (claim_C6.2.1 exOptions (AuthReason.policy AuthErrorReason.cookieOutDated)
      "stale").1⟩

/-- C5: a session fetch is issued iff loadSession is true, a user fetch
iff loadUser is true, an organization fetch iff loadOrganization is true
and the claims carry a truthy org_id; with loadOrganization true and
org_id undefined zero organization fetches are issued; and every
gated-off slot resolves to undefined in the Auth Object. -/
theorem claim_C5 (client : ApiClient) (options : Options)
    (claims : JwtPayload) :
    ((∃ x, FetchCall.session x ∈ (signedIn client options claims).1) ↔
        options.loadSession = true) ∧
    ((∃ x, FetchCall.user x ∈ (signedIn client options claims).1) ↔
        options.loadUser = true) ∧
    ((∃ x, FetchCall.organization x ∈ (signedIn client options claims).1) ↔
        (options.loadOrganization = true ∧ optTruthy claims.org_id = true)) ∧
    (options.loadOrganization = true → claims.org_id = none →
        ∀ x, FetchCall.organization x ∉ (signedIn client options claims).1) ∧
    (∀ st, (signedIn client options claims).2 = Except.ok st →
        ∃ a, st.toAuth () = AuthObjectResult.signedInObj a ∧
          (options.loadSession = false → a.session = none) ∧
          (options.loadUser = false → a.user = none) ∧
          (options.loadOrganization = false ∨ claims.org_id = none →
            a.organization = none)) := by
  refine ⟨?_, ?_, ?_, ?_, ?_⟩
  · rw [signedIn_fst, runFetches_fst]
    cases hls : options.loadSession <;>
      cases hlu : options.loadUser <;>
      cases hor : options.loadOrganization && optTruthy claims.org_id <;>
      simp
  · rw [signedIn_fst, runFetches_fst]
    cases hls : options.loadSession <;>
      cases hlu : options.loadUser <;>
      cases hor : options.loadOrganization && optTruthy claims.org_id <;>
      simp
  · rw [signedIn_fst, runFetches_fst]
    cases hls : options.loadSession <;>
      cases hlu : options.loadUser <;>
      cases hor : options.loadOrganization && optTruthy claims.org_id <;>
      simp_all
  · intro hlo hnone x
    rw [signedIn_fst, runFetches_fst]
    cases hls : options.loadSession <;>
      cases hlu : options.loadUser <;>
      simp [hnone, optTruthy]
  · intro st h
    obtain ⟨-, -, -, -, -, -, -, -, -, -, -, recs, hrf, hta⟩ :=
      signedIn_ok_fields client options claims st h
    obtain ⟨hs, hu, ho⟩ := runFetches_ok_parts client options claims recs hrf
    refine ⟨_, hta, ?_, ?_, ?_⟩
    · intro hls
      have : sessionFetchResult client options claims = Except.ok none := by
        simp [sessionFetchResult, hls]
      rw [this] at hs
      simpa [signedInAuthObject] using (Except.ok.injEq _ _).mp hs.symm
    · intro hlu
      have : userFetchResult client options claims = Except.ok none := by
        simp [userFetchResult, hlu]
      rw [this] at hu
      simpa [signedInAuthObject] using (Except.ok.injEq _ _).mp hu.symm
    · intro hgate
      have : orgFetchResult client options claims = Except.ok none := by
        rcases hgate with hlo | hnone
        · simp [orgFetchResult, hlo]
        · simp [orgFetchResult, hnone, optTruthy]
      rw [this] at ho
      simpa [signedInAuthObject] using (Except.ok.injEq _ _).mp ho.symm

/-- C5 witness: the gating claim instantiated at concrete inputs where
loadOrganization is true but no org_id is carried, and where the example
resolution succeeded. -/
theorem claim_C5_witness :
    (∀ x, FetchCall.organization x ∉
        (signedIn exClient exOptions
          { sub := "user_1", sid := "sess_1", org_id := none }).1) ∧
    (∃ a, exResolvedState.toAuth () = AuthObjectResult.signedInObj a ∧
        (exOptions.loadSession = false → a.session = none) ∧
        (exOptions.loadUser = false → a.user = none) ∧
        (exOptions.loadOrganization = false ∨ exClaims.org_id = none →
          a.organization = none)) :=
  ⟨(claim_C5 exClient exOptions
      { sub := "user_1", sid := "sess_1", org_id := none }).2.2.2.1 rfl rfl,
    (claim_C5 exClient exOptions exClaims).2.2.2.2 exResolvedState
      exResolvedState_ok⟩

/-- C7: signedOut, interstitial and unknownState are total for every
options bag and reason; signedIn either fails or returns a SignedIn
state; and when any issued fetch fails the failure propagates to the
caller of signedIn as a failed resolution. -/
theorem claim_C7 :
    (∀ options reason message,
        (signedOut options reason message).status = AuthStatus.signedOut ∧
        (interstitial options reason message).status =
          AuthStatus.interstitial ∧
        (unknownState options reason message).status = AuthStatus.unknown) ∧
    (∀ client options claims,
        (∃ e, (signedIn client options claims).2 = Except.error e) ∨
        (∃ st, (signedIn client options claims).2 = Except.ok st ∧
          st.status = AuthStatus.signedIn)) ∧
    (∀ client options claims,
        ((options.loadSession = true ∧
            ∃ e, client.getSession claims.sid = Except.error e) ∨
          (options.loadUser = true ∧
            ∃ e, client.getUser claims.sub = Except.error e) ∨
          ((options.loadOrganization && optTruthy claims.org_id) = true ∧
            ∃ e, client.getOrganization (claims.org_id.getD "") =
              Except.error e)) →
        ∃ e, (signedIn client options claims).2 = Except.error e) := by
  refine ⟨?_, ?_, ?_⟩
  · intro options reason message
    exact ⟨rfl, rfl, rfl⟩
  · intro client options claims
    cases h : (signedIn client options claims).2 with
    | error e => exact Or.inl ⟨e, rfl⟩
    | ok st =>
      exact Or.inr ⟨st, rfl, (signedIn_ok_fields client options claims st h).1⟩
  · intro client options claims h
    have hpart :
        (∃ e, sessionFetchResult client options claims = Except.error e) ∨
        (∃ e, userFetchResult client options claims = Except.error e) ∨
        (∃ e, orgFetchResult client options claims = Except.error e) := by
      rcases h with ⟨hf, e, he⟩ | ⟨hf, e, he⟩ | ⟨hf, e, he⟩
      · exact Or.inl ⟨e, by simp [sessionFetchResult, hf, he, Except.map]⟩
      · exact Or.inr (Or.inl ⟨e, by simp [userFetchResult, hf, he, Except.map]⟩)
      · exact Or.inr (Or.inr ⟨e, by simp [orgFetchResult, hf, he, Except.map]⟩)
    obtain ⟨e, he⟩ := runFetches_error_of_part client options claims hpart
    exact ⟨e, by rw [signedIn_snd, he]; rfl⟩

/-- C7 witness: the propagation claim instantiated at the concrete
failing client whose session fetch errors. -/
theorem claim_C7_witness :
    ∃ e, (signedIn exFailClient exOptions exClaims).2 = Except.error e :=
  claim_C7.2.2 exFailClient exOptions exClaims (Or.inl ⟨rfl, "network", rfl⟩)

/-- C8: for every state whose toAuth is non-null, two calls of toAuth
return the same Auth Object, and that object is built from the data
captured at construction time: the claims, the selected token and the
fetched records for signedIn, and the status, reason and message for
signedOut. -/
theorem claim_C8 :
    (∀ options reason message,
        (signedOut options reason message).toAuth () =
          (signedOut options reason message).toAuth () ∧
        (signedOut options reason message).toAuth () =
          AuthObjectResult.signedOutObj
            (signedOutAuthObject AuthStatus.signedOut reason message)) ∧
    (∀ client options claims st recs,
        (runFetches client options claims).2 = Except.ok recs →
        (signedIn client options claims).2 = Except.ok st →
        st.toAuth () = st.toAuth () ∧
        st.toAuth () = AuthObjectResult.signedInObj
          (signedInAuthObject claims
            (selectToken options.cookieToken options.headerToken)
            recs.1 recs.2.1 recs.2.2)) := by
  refine ⟨?_, ?_⟩
  · intro options reason message
    exact ⟨rfl, rfl⟩
  · intro client options claims st recs hrf h
    obtain ⟨-, -, -, -, -, -, -, -, -, -, -, recs2, hrf2, hta⟩ :=
      signedIn_ok_fields client options claims st h
    have : recs2 = recs := by
      rw [hrf] at hrf2
      exact ((Except.ok.injEq _ _).mp hrf2).symm
    rw [this] at hta
    exact ⟨rfl, hta⟩

/-- C8 witness: the immutable-capture claim instantiated at the concrete
example resolution. -/
theorem claim_C8_witness :
    exResolvedState.toAuth () = exResolvedState.toAuth () ∧
      exResolvedState.toAuth () = AuthObjectResult.signedInObj
        (signedInAuthObject exClaims
          (selectToken exOptions.cookieToken exOptions.headerToken)
          exRecs.1 exRecs.2.1 exRecs.2.2) :=
  claim_C8.2 exClient exOptions exClaims exResolvedState exRecs
    exRunFetches_ok exResolvedState_ok

/-- C3: injecting a RequestState into an initially empty carrier and
retrieving over the same carrier yields the subset of status, message and
reason that was truthy on the state: the status key is always injected
and always retrieves, an empty message is never injected and retrieves as
none rather than the empty string, and the reason retrieves exactly when
its code is truthy. -/
theorem claim_C3 (s : RequestState) :
    (retrieveRequestState
        (carrierInject emptyCarrier (injectRequestState s))
        carrierRetrieve).status = some s.status.code ∧
    (retrieveRequestState
        (carrierInject emptyCarrier (injectRequestState s))
        carrierRetrieve).message =
      (if optTruthy s.message then s.message else none) ∧
    (retrieveRequestState
        (carrierInject emptyCarrier (injectRequestState s))
        carrierRetrieve).reason =
      (match s.reason with
       | some r =>
           if (AuthReason.code r).isEmpty then none
           else some (AuthReason.code r)
       | none => none) ∧
    (headerAuthStatus, s.status.code) ∈ injectRequestState s ∧
    (s.message = some "" →
      ∀ v, (headerAuthMessage, v) ∉ injectRequestState s) := by
  have hS : s.status.code.isEmpty = false := status_code_not_empty s.status
  cases hm : s.message with
  | none =>
    cases hr : s.reason with
    | none =>
      simp [retrieveRequestState, retrieveRequestStateTraced, tracedRetrieve,
        carrierInject, emptyCarrier, injectRequestState, carrierRetrieve,
        hS, hm, hr, List.find?, optTruthy, headerAuthStatus,
        headerAuthMessage, headerAuthReason]
    | some r =>
      by_cases hrc : (AuthReason.code r).isEmpty
      · simp [retrieveRequestState, retrieveRequestStateTraced, tracedRetrieve,
          carrierInject, emptyCarrier, injectRequestState, carrierRetrieve,
          hS, hm, hr, hrc, List.find?, optTruthy, headerAuthStatus,
          headerAuthMessage, headerAuthReason]
      · simp [retrieveRequestState, retrieveRequestStateTraced, tracedRetrieve,
          carrierInject, emptyCarrier, injectRequestState, carrierRetrieve,
          hS, hm, hr, hrc, List.find?, optTruthy, headerAuthStatus,
          headerAuthMessage, headerAuthReason]
  | some m =>
    by_cases hme : m.isEmpty
    · have hmz : m = "" := (String.isEmpty_iff m).mp hme
      subst hmz
      cases hr : s.reason with
      | none =>
        simp [retrieveRequestState, retrieveRequestStateTraced, tracedRetrieve,
          carrierInject, emptyCarrier, injectRequestState, carrierRetrieve,
          hS, hm, hme, hr, List.find?, optTruthy, headerAuthStatus,
          headerAuthMessage, headerAuthReason]
      | some r =>
        by_cases hrc : (AuthReason.code r).isEmpty
        · simp [retrieveRequestState, retrieveRequestStateTraced,
            tracedRetrieve, carrierInject, emptyCarrier, injectRequestState,
            carrierRetrieve, hS, hm, hme, hr, hrc, List.find?, optTruthy,
            headerAuthStatus, headerAuthMessage, headerAuthReason]
        · simp [retrieveRequestState, retrieveRequestStateTraced,
            tracedRetrieve, carrierInject, emptyCarrier, injectRequestState,
            carrierRetrieve, hS, hm, hme, hr, hrc, List.find?, optTruthy,
            headerAuthStatus, headerAuthMessage, headerAuthReason]
    · have hne : m ≠ "" := by
        intro hq
        subst hq
        exact hme rfl
      cases hr : s.reason with
      | none =>
        simp [retrieveRequestState, retrieveRequestStateTraced, tracedRetrieve,
          carrierInject, emptyCarrier, injectRequestState, carrierRetrieve,
          hS, hm, hme, hne, hr, List.find?, optTruthy, headerAuthStatus,
          headerAuthMessage, headerAuthReason]
      | some r =>
        by_cases hrc : (AuthReason.code r).isEmpty
        · simp [retrieveRequestState, retrieveRequestStateTraced,
            tracedRetrieve, carrierInject, emptyCarrier, injectRequestState,
            carrierRetrieve, hS, hm, hme, hne, hr, hrc, List.find?, optTruthy,
            headerAuthStatus, headerAuthMessage, headerAuthReason]
        · simp [retrieveRequestState, retrieveRequestStateTraced,
            tracedRetrieve, carrierInject, emptyCarrier, injectRequestState,
            carrierRetrieve, hS, hm, hme, hne, hr, hrc, List.find?, optTruthy,
            headerAuthStatus, headerAuthMessage, headerAuthReason]

/-- C3 witness: the round trip instantiated at a concrete state with an
empty message (an interstitial state built with the message omitted). -/
theorem claim_C3_witness :
    (retrieveRequestState
        (carrierInject emptyCarrier
          (injectRequestState
            (interstitial exOptions
              (AuthReason.policy AuthErrorReason.cookieOutDated) "")))
        carrierRetrieve).message = none ∧
    (∀ v, (headerAuthMessage, v) ∉
        injectRequestState
          (interstitial exOptions
            (AuthReason.policy AuthErrorReason.cookieOutDated) "")) := by
  have h := claim_C3
    (interstitial exOptions (AuthReason.policy AuthErrorReason.cookieOutDated) "")
  exact ⟨by rw [h.2.1]; rfl, h.2.2.2.2 rfl⟩

/-- C9: retrieveRequestState invokes the retrieve callback exactly once
per transport key, three calls in total, returns the record of the three
retrieved values, and on a carrier where nothing was injected returns a
record of three absent values without failing. -/
theorem claim_C9 {Q : Type} (req : Q)
    (retrieve : Q → String → Option String) :
    (retrieveRequestStateTraced req retrieve).2 =
      [headerAuthStatus, headerAuthMessage, headerAuthReason] ∧
    (retrieveRequestStateTraced req retrieve).2.count headerAuthStatus = 1 ∧
    (retrieveRequestStateTraced req retrieve).2.count headerAuthMessage = 1 ∧
    (retrieveRequestStateTraced req retrieve).2.count headerAuthReason = 1 ∧
    retrieveRequestState req retrieve =
      { status := retrieve req headerAuthStatus
        message := retrieve req headerAuthMessage
        reason := retrieve req headerAuthReason } ∧
    retrieveRequestState req (fun _ _ => none) =
      { status := none, message := none, reason := none } :=
  ⟨rfl, rfl, rfl, rfl, rfl, rfl⟩

/-- C10: retrieveRequestState validates nothing: whatever the retrieve
callback returns for the three keys is handed back verbatim, even when
the status string is not one of the four AuthStatus values or the reason
string is not a code of the local reason taxonomy. -/
theorem claim_C10 {Q : Type} (req : Q)
    (retrieve : Q → String → Option String) :
    (retrieveRequestState req retrieve).status =
      retrieve req headerAuthStatus ∧
    (retrieveRequestState req retrieve).message =
      retrieve req headerAuthMessage ∧
    (retrieveRequestState req retrieve).reason =
      retrieve req headerAuthReason ∧
    (retrieveRequestState ()
        (fun _ _ => some "definitely-not-a-status")).status =
      some "definitely-not-a-status" ∧
    (∀ st : AuthStatus, st.code ≠ "definitely-not-a-status") ∧
    (retrieveRequestState ()
        (fun _ _ => some "definitely-not-a-reason")).reason =
      some "definitely-not-a-reason" ∧
    (∀ r : AuthErrorReason, r.code ≠ "definitely-not-a-reason") := by
  refine ⟨rfl, rfl, rfl, rfl, ?_, rfl, ?_⟩
  · intro st
    cases st <;> decide
  · intro r
    cases r <;> decide

/-- C9 witness: the callback-invocation claim instantiated at a concrete
carrier. -/
theorem claim_C9_witness :
    (retrieveRequestStateTraced emptyCarrier carrierRetrieve).2 =
      [headerAuthStatus, headerAuthMessage, headerAuthReason] ∧
    retrieveRequestState emptyCarrier (fun _ _ => none) =
      { status := none, message := none, reason := none } :=
  ⟨(claim_C9 emptyCarrier carrierRetrieve).1,
    (claim_C9 emptyCarrier carrierRetrieve).2.2.2.2.2⟩

/-- C10 witness: the no-validation claim instantiated at a concrete
retrieve callback returning a string outside both taxonomies. -/
theorem claim_C10_witness :
    (retrieveRequestState ()
        (fun _ _ => some "definitely-not-a-status")).status =
      some "definitely-not-a-status" ∧
    AuthStatus.code AuthStatus.signedIn ≠ "definitely-not-a-status" :=
  ⟨(claim_C10 () (fun _ _ => some "definitely-not-a-status")).2.2.2.1,
    (claim_C10 () (fun _ _ => some "definitely-not-a-status")).2.2.2.2.1
      AuthStatus.signedIn⟩

end AuthCore
